import Mathlib

/-!
Verification development for the `dnsquery` DNS client library.

The Rust sources are shallowly embedded: machine integers become `Nat`
(with explicit `% 2^w` where wrap-around matters, and `Int` for `i32`),
byte buffers become `List Nat`, growable output buffers are passed and
returned explicitly, `std::io::Cursor` becomes a `(buffer, position)`
pair, and fallible functions return an explicit result type.  Rust
panics (out-of-bounds slicing or indexing) are modelled by a dedicated
`outOfBounds` outcome, and potential non-termination of recursive
decoders is modelled with a fuel parameter whose exhaustion is the
dedicated `noFuel` outcome.

Each embedded definition is named after the Rust item it translates
(module path as a Lean namespace).  The repository mixes several
incompatible revisions of the same types; each revision is embedded in
the namespace of the file it comes from:
* `Rfc1035` embeds `src/rfc1035.rs`;
* `NetworkOrderDns` embeds `src/network_order/dns.rs`;
* `Primitive` embeds `src/network_order/primitive.rs`;
* `Util` embeds `src/util.rs`;
* the `DnsEnum` derive macro output (`dns_derive/src/dns_enum.rs`) is
  embedded as the `try_from` / `as_u16` functions of each enum, and the
  `derive_enum!` macro output (`src/macros.rs`, `u16` arm) as the
  generic `enum_to_network_bytes` / `enum_from_network_bytes`.
-/

namespace Dnsquery

/-- Internal errors of `src/error.rs` (`InternalError`). -/
inductive InternalError where
  | dnsDomainNameTooLong
  | emptyDomainName
deriving DecidableEq

/-- The error enum of `src/error.rs` (`DNSError`).  `io` covers wrapped
`std::io::Error` values (in particular short reads), `utf8` covers
`str::Utf8Error`, `dns` is the `DNSError::DNS(String)` variant created
by `DNSError::new`. -/
inductive DNSError where
  | io
  | fromUtf8
  | utf8
  | loggerError
  | dns (msg : String)
  | dnsInternalError (e : InternalError)
deriving DecidableEq

/-- Outcome of running an embedded Rust function: a normal `Ok` value, a
normal `Err` value, a panic (out-of-bounds slice or index), or fuel
exhaustion (the modelling artifact standing for non-termination of the
source). -/
inductive RunResult (α : Type) where
  | ok (val : α)
  | err (e : DNSError)
  | outOfBounds
  | noFuel
deriving DecidableEq

namespace Util

/-- `src/util.rs`, `is_pointer`: a length octet marks a compression
pointer exactly when it is at least 192 (top two bits `11`). -/
def is_pointer (x : Nat) : Bool := 192 ≤ x

end Util

/-- Worker for UTF-8 validation: `pending` holds the admissible
`[lo, hi)` ranges for the continuation bytes still expected from the
current multi-byte sequence; with an empty `pending` the next byte is a
lead byte, which is either ASCII, a 2-byte lead (0xC2..0xDF), a 3-byte
lead (0xE0..0xEF, with the restricted first continuation ranges that
exclude overlong forms and surrogates), a 4-byte lead (0xF0..0xF4, with
the restricted first continuation ranges that exclude overlong forms
and code points above 0x10FFFF), or invalid. -/
def utf8ValidAux : List (Nat × Nat) → List Nat → Bool
  | [], [] => true
  | _ :: _, [] => false
  | (lo, hi) :: pend, b :: rest =>
    if lo ≤ b ∧ b < hi then utf8ValidAux pend rest else false
  | [], b :: rest =>
    if b < 128 then utf8ValidAux [] rest
    else if b < 194 then false
    else if b < 224 then utf8ValidAux [(128, 192)] rest
    else if b < 240 then
      utf8ValidAux [(if b = 224 then 160 else 128, if b = 237 then 160 else 192),
                    (128, 192)] rest
    else if b < 245 then
      utf8ValidAux [(if b = 240 then 144 else 128, if b = 244 then 144 else 192),
                    (128, 192), (128, 192)] rest
    else false

/-- Validity of a byte sequence as UTF-8, as checked by Rust
`str::from_utf8` (RFC 3629: no overlong forms, no surrogates, no code
points above `0x10FFFF`). -/
def utf8Valid (l : List Nat) : Bool := utf8ValidAux [] l

/-- The error message produced by the `TryFrom<u16>` implementation
generated by the `DnsEnum` derive macro
(`dns_derive/src/dns_enum.rs`, the wildcard arm of the match). -/
def enumConvErr (name : String) (value : Nat) : String :=
  "error converting u16 value <" ++ toString value ++ "> to enum type " ++ name

namespace Rfc1035

/-- `src/rfc1035.rs`, `enum PacketType` (QR bit). -/
inductive PacketType where
  | Query
  | Response
deriving DecidableEq

/-- Discriminants of `PacketType` (the Rust `as u16` cast). -/
def PacketType.as_u16 : PacketType → Nat
  | .Query => 0
  | .Response => 1

/-- The variants of `PacketType` in declaration order. -/
def PacketType.variants : List PacketType := [.Query, .Response]

/-- `src/rfc1035.rs`, `enum OpCode`. -/
inductive OpCode where
  | Query
  | IQuery
  | Status
  | Unassigned
  | Notify
  | Update
  | DOS
deriving DecidableEq

/-- Discriminants of `OpCode` (the Rust `as u16` cast). -/
def OpCode.as_u16 : OpCode → Nat
  | .Query => 0
  | .IQuery => 1
  | .Status => 2
  | .Unassigned => 3
  | .Notify => 4
  | .Update => 5
  | .DOS => 6

/-- The variants of `OpCode` in declaration order. -/
def OpCode.variants : List OpCode :=
  [.Query, .IQuery, .Status, .Unassigned, .Notify, .Update, .DOS]

/-- `src/rfc1035.rs`, `enum ResponseCode`. -/
inductive ResponseCode where
  | NoError
  | FormErr
  | ServFail
  | NXDomain
  | NotImp
  | Refused
  | YXDomain
  | YXRRSet
  | NXRRSet
  | NotAuth
  | NotZone
  | DSOTYPENI
  | BADVERS
  | BADKEY
  | BADTIME
  | BADMODE
  | BADNAME
  | BADALG
  | BADTRUNC
  | BADCOOKIE
deriving DecidableEq

/-- Discriminants of `ResponseCode` (the Rust `as u16` cast). -/
def ResponseCode.as_u16 : ResponseCode → Nat
  | .NoError => 0
  | .FormErr => 1
  | .ServFail => 2
  | .NXDomain => 3
  | .NotImp => 4
  | .Refused => 5
  | .YXDomain => 6
  | .YXRRSet => 7
  | .NXRRSet => 8
  | .NotAuth => 9
  | .NotZone => 10
  | .DSOTYPENI => 11
  | .BADVERS => 16
  | .BADKEY => 17
  | .BADTIME => 18
  | .BADMODE => 19
  | .BADNAME => 20
  | .BADALG => 21
  | .BADTRUNC => 22
  | .BADCOOKIE => 23

/-- The variants of `ResponseCode` in declaration order. -/
def ResponseCode.variants : List ResponseCode :=
  [.NoError, .FormErr, .ServFail, .NXDomain, .NotImp, .Refused, .YXDomain, .YXRRSet,
   .NXRRSet, .NotAuth, .NotZone, .DSOTYPENI, .BADVERS, .BADKEY, .BADTIME, .BADMODE,
   .BADNAME, .BADALG, .BADTRUNC, .BADCOOKIE]

/-- `src/rfc1035.rs`, `enum QClass`. -/
inductive QClass where
  | IN
  | CS
  | CH
  | HS
  | ANY
deriving DecidableEq

/-- Discriminants of `QClass` (the Rust `as u16` cast). -/
def QClass.as_u16 : QClass → Nat
  | .IN => 1
  | .CS => 2
  | .CH => 3
  | .HS => 4
  | .ANY => 255

/-- The variants of `QClass` in declaration order. -/
def QClass.variants : List QClass := [.IN, .CS, .CH, .HS, .ANY]

/-- `src/rfc1035.rs`, `enum QType` (IANA RR type registry subset). -/
inductive QType where
  | A
  | NS
  | MD
  | MF
  | CNAME
  | SOA
  | MB
  | MG
  | MR
  | NULL
  | WKS
  | PTR
  | HINFO
  | MINFO
  | MX
  | TXT
  | RP
  | AFSDB
  | X25
  | ISDN
  | RT
  | NSAP
  | NSAPPTR
  | SIG
  | KEY
  | PX
  | GPOS
  | AAAA
  | LOC
  | NXT
  | EID
  | NIMLOC
  | SRV
  | ATMA
  | NAPTR
  | KX
  | CERT
  | A6
  | DNAME
  | SINK
  | OPT
  | APL
  | DS
  | SSHFP
  | IPSECKEY
  | RRSIG
  | NSEC
  | DNSKEY
  | DHCID
  | NSEC3
  | NSEC3PARAM
  | TLSA
  | SMIMEA
  | Unassigned
  | HIP
  | NINFO
  | RKEY
  | TALINK
  | CDS
  | CDNSKEY
  | OPENPGPKEY
  | CSYNC
  | ZONEMD
  | SVCB
  | HTTPS
  | SPF
  | UINFO
  | UID
  | GID
  | UNSPEC
  | NID
  | L32
  | L64
  | LP
  | EUI48
  | EUI64
  | TKEY
  | TSIG
  | IXFR
  | AXFR
  | MAILB
  | MAILA
  | ANY
  | URI
  | CAA
  | AVC
  | DOA
  | AMTRELAY
  | TA
  | DLV
deriving DecidableEq

/-- Discriminants of `QType` (the Rust `as u16` cast). -/
def QType.as_u16 : QType → Nat
  | .A => 1
  | .NS => 2
  | .MD => 3
  | .MF => 4
  | .CNAME => 5
  | .SOA => 6
  | .MB => 7
  | .MG => 8
  | .MR => 9
  | .NULL => 10
  | .WKS => 11
  | .PTR => 12
  | .HINFO => 13
  | .MINFO => 14
  | .MX => 15
  | .TXT => 16
  | .RP => 17
  | .AFSDB => 18
  | .X25 => 19
  | .ISDN => 20
  | .RT => 21
  | .NSAP => 22
  | .NSAPPTR => 23
  | .SIG => 24
  | .KEY => 25
  | .PX => 26
  | .GPOS => 27
  | .AAAA => 28
  | .LOC => 29
  | .NXT => 30
  | .EID => 31
  | .NIMLOC => 32
  | .SRV => 33
  | .ATMA => 34
  | .NAPTR => 35
  | .KX => 36
  | .CERT => 37
  | .A6 => 38
  | .DNAME => 39
  | .SINK => 40
  | .OPT => 41
  | .APL => 42
  | .DS => 43
  | .SSHFP => 44
  | .IPSECKEY => 45
  | .RRSIG => 46
  | .NSEC => 47
  | .DNSKEY => 48
  | .DHCID => 49
  | .NSEC3 => 50
  | .NSEC3PARAM => 51
  | .TLSA => 52
  | .SMIMEA => 53
  | .Unassigned => 54
  | .HIP => 55
  | .NINFO => 56
  | .RKEY => 57
  | .TALINK => 58
  | .CDS => 59
  | .CDNSKEY => 60
  | .OPENPGPKEY => 61
  | .CSYNC => 62
  | .ZONEMD => 63
  | .SVCB => 64
  | .HTTPS => 65
  | .SPF => 99
  | .UINFO => 100
  | .UID => 101
  | .GID => 102
  | .UNSPEC => 103
  | .NID => 104
  | .L32 => 105
  | .L64 => 106
  | .LP => 107
  | .EUI48 => 108
  | .EUI64 => 109
  | .TKEY => 249
  | .TSIG => 250
  | .IXFR => 251
  | .AXFR => 252
  | .MAILB => 253
  | .MAILA => 254
  | .ANY => 255
  | .URI => 256
  | .CAA => 257
  | .AVC => 258
  | .DOA => 259
  | .AMTRELAY => 260
  | .TA => 32768
  | .DLV => 32769

/-- The variants of `QType` in declaration order. -/
def QType.variants : List QType :=
  [QType.A, QType.NS, QType.MD, QType.MF, QType.CNAME, QType.SOA, QType.MB, QType.MG,
   QType.MR, QType.NULL, QType.WKS, QType.PTR, QType.HINFO, QType.MINFO, QType.MX,
   QType.TXT, QType.RP, QType.AFSDB, QType.X25, QType.ISDN, QType.RT, QType.NSAP,
   QType.NSAPPTR, QType.SIG, QType.KEY, QType.PX, QType.GPOS, QType.AAAA, QType.LOC,
   QType.NXT, QType.EID, QType.NIMLOC, QType.SRV, QType.ATMA, QType.NAPTR, QType.KX,
   QType.CERT, QType.A6, QType.DNAME, QType.SINK, QType.OPT, QType.APL, QType.DS,
   QType.SSHFP, QType.IPSECKEY, QType.RRSIG, QType.NSEC, QType.DNSKEY, QType.DHCID,
   QType.NSEC3, QType.NSEC3PARAM, QType.TLSA, QType.SMIMEA, QType.Unassigned,
   QType.HIP, QType.NINFO, QType.RKEY, QType.TALINK, QType.CDS, QType.CDNSKEY,
   QType.OPENPGPKEY, QType.CSYNC, QType.ZONEMD, QType.SVCB, QType.HTTPS, QType.SPF,
   QType.UINFO, QType.UID, QType.GID, QType.UNSPEC, QType.NID, QType.L32, QType.L64,
   QType.LP, QType.EUI48, QType.EUI64, QType.TKEY, QType.TSIG, QType.IXFR, QType.AXFR,
   QType.MAILB, QType.MAILA, QType.ANY, QType.URI, QType.CAA, QType.AVC, QType.DOA,
   QType.AMTRELAY, QType.TA, QType.DLV]

/-- The declared numeric values of `PacketType`. -/
def PacketType.declared_values : List Nat := PacketType.variants.map PacketType.as_u16

/-- The declared numeric values of `OpCode`. -/
def OpCode.declared_values : List Nat := OpCode.variants.map OpCode.as_u16

/-- The declared numeric values of `ResponseCode`. -/
def ResponseCode.declared_values : List Nat := ResponseCode.variants.map ResponseCode.as_u16

/-- The declared numeric values of `QClass`. -/
def QClass.declared_values : List Nat := QClass.variants.map QClass.as_u16

/-- The declared numeric values of `QType`. -/
def QType.declared_values : List Nat := QType.variants.map QType.as_u16

/-- `TryFrom<u16> for PacketType` generated by the `DnsEnum` derive
macro: the match over the declared discriminants in declaration order,
with the wildcard arm producing the conversion error message. -/
def PacketType.try_from (value : Nat) : Except String PacketType :=
  match PacketType.variants.find? (fun e => e.as_u16 == value) with
  | some e => .ok e
  | none => .error (enumConvErr "PacketType" value)

/-- `TryFrom<u16> for OpCode` generated by the `DnsEnum` derive macro. -/
def OpCode.try_from (value : Nat) : Except String OpCode :=
  match OpCode.variants.find? (fun e => e.as_u16 == value) with
  | some e => .ok e
  | none => .error (enumConvErr "OpCode" value)

/-- `TryFrom<u16> for ResponseCode` generated by the `DnsEnum` derive macro. -/
def ResponseCode.try_from (value : Nat) : Except String ResponseCode :=
  match ResponseCode.variants.find? (fun e => e.as_u16 == value) with
  | some e => .ok e
  | none => .error (enumConvErr "ResponseCode" value)

/-- `TryFrom<u16> for QClass` generated by the `DnsEnum` derive macro. -/
def QClass.try_from (value : Nat) : Except String QClass :=
  match QClass.variants.find? (fun e => e.as_u16 == value) with
  | some e => .ok e
  | none => .error (enumConvErr "QClass" value)

/-- `TryFrom<u16> for QType` generated by the `DnsEnum` derive macro. -/
def QType.try_from (value : Nat) : Except String QType :=
  match QType.variants.find? (fun e => e.as_u16 == value) with
  | some e => .ok e
  | none => .error (enumConvErr "QType" value)

end Rfc1035

namespace Macros

/-- Big-endian `u16` write (`byteorder::WriteBytesExt::write_u16::<BigEndian>`):
appends the two octets of `v` to the buffer. -/
def write_u16_be (v : Nat) (buffer : List Nat) : List Nat :=
  buffer ++ [v / 256 % 256, v % 256]

/-- `src/macros.rs`, `derive_enum!` (`u16` arm), `to_network_bytes`:
writes the `as u16` discriminant big-endian and returns 2. -/
def enum_to_network_bytes (v : Nat) (buffer : List Nat) : List Nat × Nat :=
  (write_u16_be v buffer, 2)

/-- `src/macros.rs`, `derive_enum!` (`u16` arm), `from_network_bytes`:
reads a big-endian `u16` at the cursor and converts it with the enum
`TryFrom<u16>`; a conversion failure becomes `DNSError::new(&e)`
(`DNSError::DNS`), a short read is an io error. -/
def enum_from_network_bytes {α : Type} (tf : Nat → Except String α)
    (buffer : List Nat) (pos : Nat) : RunResult (α × Nat) :=
  match buffer.get? pos, buffer.get? (pos + 1) with
  | some b0, some b1 =>
    match tf (256 * b0 + b1) with
    | .ok e => .ok (e, pos + 2)
    | .error s => .err (.dns s)
  | _, _ => .err .io

end Macros

namespace Rfc1035

/-- `src/rfc1035.rs`, `struct CharacterString`: a length byte (u8) and
the string data.  Rust strings are modelled as their UTF-8 byte
sequences, so `s.len()` is `data.length`. -/
structure CharacterString where
  length : Nat
  data : List Nat
deriving DecidableEq

/-- `src/rfc1035.rs`, `impl From<&str> for CharacterString`: the length
field is `s.len() as u8` (byte length truncated to 8 bits), the data is
the string itself. -/
def CharacterString.fromStr (s : List Nat) : CharacterString :=
  { length := s.length % 256, data := s }

/-- `src/rfc1035.rs`, `enum LabelType`: a domain-name component is
either a label or the root sentinel. -/
inductive LabelType where
  | label (cs : CharacterString)
  | root
deriving DecidableEq

/-- `src/rfc1035.rs`, `DomainName::from_position`: decodes a domain
name from `buffer` starting at byte position `pos`, appending the
decoded components to `labels` (the `self.labels` vector) and returning
the final index value of the source (`Ok(index + 1)` after the zero
sentinel, `Ok(index + 2)` after a compression pointer).  The recursive
pointer-chasing and the label-scanning loop are bounded by `fuel`;
exhaustion of `fuel` (`noFuel`) models non-termination of the source,
which performs no check whatsoever on the pointer offset.  An index or
slice beyond the end of the buffer is a Rust panic (`outOfBounds`).
The result of the recursive call in the pointer branch is discarded by
the source (`let _ = self.from_position(...)`), so a `Utf8` error from
the pointee is swallowed; panics and divergence still propagate. -/
def DomainName.from_position :
    Nat → Nat → List Nat → List LabelType → List LabelType × RunResult Nat
  | 0, _, _, labels => (labels, .noFuel)
  | fuel + 1, pos, buffer, labels =>
    match buffer.get? pos with
    | none => (labels, .outOfBounds)
    | some b =>
      if b = 0 then
        (labels ++ [LabelType.root], .ok (pos + 1))
      else if Util.is_pointer b then
        match buffer.get? (pos + 1) with
        | none => (labels, .outOfBounds)
        | some b1 =>
          match DomainName.from_position fuel ((256 * b + b1) % 16384) buffer labels with
          | (labels2, RunResult.outOfBounds) => (labels2, .outOfBounds)
          | (labels2, RunResult.noFuel) => (labels2, .noFuel)
          | (labels2, _) => (labels2, .ok (pos + 2))
      else
        if pos + b + 1 ≤ buffer.length then
          let lab := (buffer.drop (pos + 1)).take b
          if utf8Valid lab then
            DomainName.from_position fuel (pos + b + 1) buffer
              (labels ++ [LabelType.label (CharacterString.fromStr lab)])
          else (labels, .err DNSError.utf8)
        else (labels, .outOfBounds)

/-- Rust `str::split('.')`: splits at every separator byte, keeping
empty fragments (so the empty string yields one empty fragment, and a
string of n separators yields n+1 empty fragments). -/
def rustSplitDot : List Nat → List (List Nat)
  | [] => [[]]
  | c :: rest =>
    match rustSplitDot rest with
    | [] => [[]]
    | p :: ps => if c = 46 then [] :: p :: ps else (c :: p) :: ps

/-- `src/rfc1035.rs`, `impl TryFrom<&str> for DomainName`: an empty
input is `EmptyDomainName`; the input `"."` yields the empty label
list; otherwise the input is split at dots, empty fragments are
filtered out, and the remaining fragments become labels; the root
sentinel is appended in every success case. -/
def DomainName.try_from (domain : List Nat) : Except DNSError (List LabelType) :=
  if domain = [] then
    .error (.dnsInternalError .emptyDomainName)
  else
    let label_list :=
      if domain = [46] then []
      else ((rustSplitDot domain).filter (fun x => !(x = [] : Bool))).map
        (fun x => LabelType.label (CharacterString.fromStr x))
    .ok (label_list ++ [LabelType.root])

/-- `src/rfc1035.rs`, `struct DNSPacketFlags` (the current revision,
with a one-bit `z` and separate AD/CD bits). -/
structure DNSPacketFlags where
  packet_type : PacketType
  op_code : OpCode
  authorative_answer : Bool
  truncated : Bool
  recursion_desired : Bool
  recursion_available : Bool
  z : Bool
  authentic_data : Bool
  checking_disabled : Bool
  response_code : ResponseCode
deriving DecidableEq

/-- Derived `Default` for `DNSPacketFlags`: every field takes its
default; the `DnsEnum` derive makes the first declared variant the
default of each enum (`PacketType::Query`, `OpCode::Query`,
`ResponseCode::NoError`). -/
def DNSPacketFlags.defaultVal : DNSPacketFlags :=
  { packet_type := .Query, op_code := .Query, authorative_answer := false,
    truncated := false, recursion_desired := false, recursion_available := false,
    z := false, authentic_data := false, checking_disabled := false,
    response_code := .NoError }

/-- `src/rfc1035.rs`, `struct DNSPacketHeader` (counts are u16). -/
structure DNSPacketHeader where
  id : Nat
  flags : DNSPacketFlags
  qd_count : Nat
  an_count : Nat
  ns_count : Nat
  ar_count : Nat
deriving DecidableEq

/-- Derived `Default` for `DNSPacketHeader`. -/
def DNSPacketHeader.defaultVal : DNSPacketHeader :=
  { id := 0, flags := DNSPacketFlags.defaultVal, qd_count := 0, an_count := 0,
    ns_count := 0, ar_count := 0 }

/-- `src/rfc1035.rs`, `struct DNSQuestion` (source field names are
`name`, `r#type`, `class`; the latter two are renamed because `class`
is a Lean keyword). -/
structure DNSQuestion where
  name : List LabelType
  qtype : QType
  qclass : QClass
deriving DecidableEq

/-- `src/rfc1035.rs`, `struct DNSResourceRecord` without its `rd_data`
field (a vector of boxed codec trait objects, which no claim touches;
`DNSMessage::default` only ever stores `None` for whole records). -/
structure DNSResourceRecord where
  name : List LabelType
  rtype : QType
  rclass : QClass
  ttl : Nat
  rd_length : Nat
deriving DecidableEq

/-- `src/rfc1035.rs`, `struct DNSMessage`. -/
structure DNSMessage where
  header : DNSPacketHeader
  question : List DNSQuestion
  answer : Option DNSResourceRecord
  authority : Option DNSResourceRecord
  additional : Option DNSResourceRecord
deriving DecidableEq

/-- `src/rfc1035.rs`, `impl Default for DNSMessage`: starts from the
default header, draws a random u16 transaction id (modelled as the
`id` parameter), and sets packet type, opcode and the
recursion-desired bit; every other field keeps its default. -/
def DNSMessage.defaultVal (id : Nat) : DNSMessage :=
  { header :=
      { DNSPacketHeader.defaultVal with
        id := id % 65536,
        flags :=
          { DNSPacketFlags.defaultVal with
            packet_type := .Query, op_code := .Query, recursion_desired := true } },
    question := [], answer := none, authority := none, additional := none }

/-- `src/rfc1035.rs`, `DNSMessage::push_question`: appends the question
to the list and increments the u16 counter `qd_count` (u16 addition,
hence modulo 2^16). -/
def DNSMessage.push_question (m : DNSMessage) (q : DNSQuestion) : DNSMessage :=
  { m with
    question := m.question ++ [q],
    header := { m.header with qd_count := (m.header.qd_count + 1) % 65536 } }

/-- Repeated application of `push_question`, one call per element of
`qs` in order. -/
def DNSMessage.pushQuestions (m : DNSMessage) (qs : List DNSQuestion) : DNSMessage :=
  qs.foldl DNSMessage.push_question m

end Rfc1035

namespace NetworkOrderDns

open Rfc1035 (PacketType OpCode ResponseCode)

/-- `src/network_order/dns.rs`: in this revision of the flags structure
the codec packs a three-bit `z` field (u8 in the struct) and there are
no separate AD/CD fields. -/
structure DNSPacketFlags where
  packet_type : PacketType
  op_code : OpCode
  authorative_answer : Bool
  truncated : Bool
  recursion_desired : Bool
  recursion_available : Bool
  z : Nat
  response_code : ResponseCode
deriving DecidableEq

/-- `bool as u16`. -/
def boolBit (b : Bool) : Nat := if b then 1 else 0

/-- `src/network_order/dns.rs`, `DNSPacketFlags::to_network_bytes`:
packs the fields into a 16-bit word
(QR at shift 15, opcode at 11, AA at 10, TC at 9, RD at 8, RA at 7,
`z` at shift 4, rcode at 0), writes it big-endian and returns 2.
`z` is a u8, hence the `% 256`. -/
def DNSPacketFlags.to_network_bytes (f : DNSPacketFlags) (buffer : List Nat) :
    List Nat × Nat :=
  let flags :=
    f.packet_type.as_u16 <<< 15 |||
    f.op_code.as_u16 <<< 11 |||
    boolBit f.authorative_answer <<< 10 |||
    boolBit f.truncated <<< 9 |||
    boolBit f.recursion_desired <<< 8 |||
    boolBit f.recursion_available <<< 7 |||
    (f.z % 256) <<< 4 |||
    f.response_code.as_u16
  (Macros.write_u16_be flags buffer, 2)

/-- `src/network_order/dns.rs`, `DNSPacketFlags::from_network_bytes`:
reads a big-endian u16 at the cursor and unpacks the fields.  Note the
source reads `z` as `(flags >> 7 & 0b111)`, i.e. from bit positions
7..9 (the RA/RD/TC bits), not from the positions 4..6 where the encoder
wrote it.  A failing enum conversion becomes a `DNSError` through the
`?` operator (`From<String>` gives `DNSError::DNS`). -/
def DNSPacketFlags.from_network_bytes (buffer : List Nat) (pos : Nat) :
    RunResult (DNSPacketFlags × Nat) :=
  match buffer.get? pos, buffer.get? (pos + 1) with
  | some b0, some b1 =>
    let flags := 256 * b0 + b1
    match PacketType.try_from (flags >>> 15) with
    | .error s => .err (.dns s)
    | .ok pt =>
      match OpCode.try_from ((flags >>> 11) &&& 15) with
      | .error s => .err (.dns s)
      | .ok oc =>
        match ResponseCode.try_from (flags &&& 15) with
        | .error s => .err (.dns s)
        | .ok rc =>
          .ok ({ packet_type := pt, op_code := oc,
                 authorative_answer := (flags >>> 10) &&& 1 == 1,
                 truncated := (flags >>> 9) &&& 1 == 1,
                 recursion_desired := (flags >>> 8) &&& 1 == 1,
                 recursion_available := (flags >>> 7) &&& 1 == 1,
                 z := (flags >>> 7) &&& 7,
                 response_code := rc }, pos + 2)
  | _, _ => .err .io

/-- `src/network_order/dns.rs`, `CharacterString::from_network_bytes`
(in this revision `CharacterString` is a plain string slice): the
length is read from `reference[0]` - index 0 of the whole underlying
buffer, not the cursor position (panics if the buffer is empty); the
cursor is then seeked to the absolute offset 12 (always succeeds, even
past the end); the data is the slice `buffer[1..size+1]` (panics if it
runs past the end) converted from UTF-8.  The cursor position argument
`pos` is ignored by the source. -/
def CharacterString.from_network_bytes (buffer : List Nat) (_pos : Nat) :
    RunResult (List Nat × Nat) :=
  match buffer.get? 0 with
  | none => .outOfBounds
  | some size =>
    if size + 1 ≤ buffer.length then
      let data := (buffer.drop 1).take size
      if utf8Valid data then .ok (data, 12) else .err .utf8
    else .outOfBounds

/-- `src/network_order/dns.rs`: in this revision `DomainName` is a
tuple struct holding the plain list of labels (strings, here byte
lists), with no explicit root element. -/
def DomainNameB := List (List Nat)

/-- `src/network_order/dns.rs`, `DomainName::to_network_bytes`: for
each label, write the length byte (`label.len() as u8`) followed by the
label bytes, accumulating `label.len() + 1` into the returned length;
finally write the 0 sentinel and return `length + 1`.  No compression
is ever emitted. -/
def DomainName.to_network_bytes (labels : DomainNameB) (buffer : List Nat) :
    List Nat × Nat :=
  let r := labels.foldl
    (fun (acc : List Nat × Nat) l => (acc.1 ++ (l.length % 256) :: l, acc.2 + l.length + 1))
    (buffer, 0)
  (r.1 ++ [0], r.2 + 1)

/-- The byte run produced by the label loop of
`DomainName::to_network_bytes` (everything before the terminating
zero octet), in recursive form for reasoning about the foldl. -/
def encBody : List (List Nat) → List Nat
  | [] => []
  | l :: ls => (l.length % 256) :: (l ++ encBody ls)

/-- The `length` accumulator of `DomainName::to_network_bytes` in
recursive form. -/
def encLen : List (List Nat) → Nat
  | [] => 0
  | l :: ls => l.length + 1 + encLen ls

/-- Decoded components produced by the domain-name wire decoder of this
revision: parsed labels plus the root sentinel emitted at the
terminating zero octet. -/
inductive SpecLabel where
  | label (bytes : List Nat)
  | root
deriving DecidableEq

/-- The byte scan performed by `DomainName::from_network_bytes`
(`bytes().skip_while(|x| x != 0 && x < 192).next()`): starting at
`pos`, skip bytes that are neither 0 nor ≥ 192 and consume the first
byte that is one of those (the sentinel), returning its index and
value; `none` when the buffer ends first. -/
def findSentinelAux : List Nat → Nat → Option (Nat × Nat)
  | [], _ => none
  | b :: rest, i => if b = 0 || 192 ≤ b then some (i, b) else findSentinelAux rest (i + 1)

/-- `findSentinelAux` applied from a cursor position. -/
def findSentinel (buffer : List Nat) (pos : Nat) : Option (Nat × Nat) :=
  findSentinelAux (buffer.drop pos) pos

/-- Modelled from the spec: `DomainName::from_slice` is called by
`DomainName::from_network_bytes` (and by the tests) but its definition
is missing from the sources.  Following the decode loop of spec §4.3
applied to a slice: a zero octet emits the root sentinel and ends the
name; a pointer octet (top bits `11`) terminates the name, the target
being handled by the caller; a reserved top-bit pattern (`01`/`10`,
i.e. a length above 63) is rejected as a malformed name; otherwise the
length octet is followed by that many label bytes (labels borrow from
the buffer, no UTF-8 check); running out of slice bytes is the
spec ShortRead failure, which the crate wraps as `DNSError::Io`. -/
def DomainName.from_slice : List Nat → Except DNSError (List SpecLabel)
  | [] => .error .io
  | b :: rest =>
    if b = 0 then .ok [SpecLabel.root]
    else if Util.is_pointer b then .ok []
    else if 63 < b then .error (.dns "MalformedName")
    else if rest.length < b then .error .io
    else
      match DomainName.from_slice (rest.drop b) with
      | .ok ls => .ok (SpecLabel.label (rest.take b) :: ls)
      | .error e => .error e
termination_by s => s.length
decreasing_by
  simp only [List.length_drop, List.length_cons]
  omega

/-- `src/network_order/dns.rs`, `DomainName::from_network_bytes`: scan
from the cursor position for the sentinel byte (0 or ≥ 192); no
sentinel at all is the "malformed compression" error.  A zero sentinel
hands the consumed slice (sentinel included) to `from_slice`.  A
pointer sentinel reads one more byte (short read: io error), masks the
16-bit word down to the low 14 bits, and: if the pointer was the very
first byte, decodes `buffer[pointer..]`; otherwise decodes the
consumed slice and then `buffer[pointer..]`.  Slicing beyond the end of
the buffer is a Rust panic.  No comparison of the pointer offset with
the current position is performed.  The cursor ends just past the
sentinel (past the second pointer byte in the pointer case). -/
def DomainName.from_network_bytes (buffer : List Nat) (pos : Nat) :
    RunResult (List SpecLabel × Nat) :=
  let start := pos
  match findSentinel buffer pos with
  | none => .err (.dns "malformed compression")
  | some (i, s) =>
    let endPos := i + 1
    if s = 0 then
      match DomainName.from_slice ((buffer.drop start).take (endPos - start)) with
      | .ok ls => .ok (ls, endPos)
      | .error e => .err e
    else
      match buffer.get? endPos with
      | none => .err .io
      | some b1 =>
        let ptr := (256 * s + b1) % 16384
        if endPos - start = 1 then
          if ptr ≤ buffer.length then
            match DomainName.from_slice (buffer.drop ptr) with
            | .ok ls => .ok (ls, endPos + 1)
            | .error e => .err e
          else .outOfBounds
        else
          match DomainName.from_slice ((buffer.drop start).take (endPos - start)) with
          | .error e => .err e
          | .ok ls1 =>
            if ptr ≤ buffer.length then
              match DomainName.from_slice (buffer.drop ptr) with
              | .ok ls2 => .ok (ls1 ++ ls2, endPos + 1)
              | .error e => .err e
            else .outOfBounds

end NetworkOrderDns

namespace Primitive

/-- The four big-endian octets of an `i32` (two's complement). -/
def i32BeBytes (v : Int) : List Nat :=
  let w := (v % 4294967296).toNat
  [w / 16777216 % 256, w / 65536 % 256, w / 256 % 256, w % 256]

/-- `src/network_order/primitive.rs`, `impl ToFromNetworkOrder for i32`,
`to_network_bytes`: writes the four big-endian octets of the value with
`write_i32::<BigEndian>` but returns `Ok(2)`. -/
def i32_to_network_bytes (v : Int) (buffer : List Nat) : List Nat × Nat :=
  (buffer ++ i32BeBytes v, 2)

end Primitive

/-! ## Helper lemmas -/

/-- A `find?` over a discriminant comparison fails when the sought
value is not among the mapped discriminants. -/
theorem find_none_of_not_mem_map {α : Type} (l : List α) (f : α → Nat) (v : Nat)
    (hv : v ∉ l.map f) : l.find? (fun e => f e == v) = none := by
  rw [List.find?_eq_none]
  intro e he hbe
  have hfe : f e = v := by simpa using hbe
  exact hv (List.mem_map.mpr ⟨e, he, hfe⟩)

/-- A byte sequence of ASCII bytes is valid UTF-8. -/
theorem utf8Valid_of_ascii : ∀ l : List Nat, (∀ x ∈ l, x < 128) → utf8Valid l = true := by
  intro l
  induction l with
  | nil => intro _; rfl
  | cons b rest ih =>
    intro h
    have hb : b < 128 := h b (List.mem_cons_self b rest)
    show utf8ValidAux [] (b :: rest) = true
    simp only [utf8ValidAux, hb, if_true]
    exact ih (fun x hx => h x (List.mem_cons_of_mem b hx))

/-- `push_question` repeated over a list never touches the flags. -/
theorem pushQuestions_flags (qs : List Rfc1035.DNSQuestion) (m : Rfc1035.DNSMessage) :
    (Rfc1035.DNSMessage.pushQuestions m qs).header.flags = m.header.flags := by
  induction qs generalizing m with
  | nil => rfl
  | cons q qs ih => exact (ih (m.push_question q)).trans rfl

/-- `push_question` repeated over a list performs one u16 increment of
`qd_count` per element. -/
theorem pushQuestions_qd (qs : List Rfc1035.DNSQuestion) (m : Rfc1035.DNSMessage)
    (h : m.header.qd_count < 65536) :
    (Rfc1035.DNSMessage.pushQuestions m qs).header.qd_count
      = (m.header.qd_count + qs.length) % 65536 := by
  induction qs generalizing m with
  | nil => exact (Nat.mod_eq_of_lt h).symm
  | cons q qs ih =>
    have hlt : (m.push_question q).header.qd_count < 65536 := Nat.mod_lt _ (by omega)
    have step := ih (m.push_question q) hlt
    have hq : (m.push_question q).header.qd_count = (m.header.qd_count + 1) % 65536 := rfl
    rw [hq] at step
    have : Rfc1035.DNSMessage.pushQuestions m (q :: qs)
        = Rfc1035.DNSMessage.pushQuestions (m.push_question q) qs := rfl
    rw [this, step, Nat.mod_add_mod]
    rw [show m.header.qd_count + 1 + qs.length = m.header.qd_count + (qs.length + 1) by omega]
    rfl

/-- `push_question` repeated over a list appends exactly that list to
the in-memory question list. -/
theorem pushQuestions_question (qs : List Rfc1035.DNSQuestion) (m : Rfc1035.DNSMessage) :
    (Rfc1035.DNSMessage.pushQuestions m qs).question = m.question ++ qs := by
  induction qs generalizing m with
  | nil => simp [Rfc1035.DNSMessage.pushQuestions]
  | cons q qs ih =>
    have : Rfc1035.DNSMessage.pushQuestions m (q :: qs)
        = Rfc1035.DNSMessage.pushQuestions (m.push_question q) qs := rfl
    rw [this, ih]
    simp [Rfc1035.DNSMessage.push_question]

/-! ## Claim theorems -/

/-- C1.  The claim asserts that decoding the two octets produced by
`DNSPacketFlags::to_network_bytes` with `from_network_bytes` restores
every flag combination, the reserved Z field included.  It is false on
the code: the encoder places `z` at bit positions 4..6 of the flags
word but the decoder reads `(flags >> 7) & 0b111`, i.e. bit positions
7..9 (the RA/RD/TC bits).  At the concrete input with `z = 1` and every
other field at its default, the encoded word is `0x0010` and decoding
succeeds but returns `z = 0`, so the round trip loses the reserved
bits. -/
theorem dnsquery_c1_flags_z_lost :
    NetworkOrderDns.DNSPacketFlags.from_network_bytes
        (NetworkOrderDns.DNSPacketFlags.to_network_bytes
          { packet_type := .Query, op_code := .Query, authorative_answer := false,
            truncated := false, recursion_desired := false, recursion_available := false,
            z := 1, response_code := .NoError } []).1 0
      = RunResult.ok
          ({ packet_type := .Query, op_code := .Query, authorative_answer := false,
             truncated := false, recursion_desired := false, recursion_available := false,
             z := 0, response_code := .NoError }, 2)
    ∧ ({ packet_type := .Query, op_code := .Query, authorative_answer := false,
         truncated := false, recursion_desired := false, recursion_available := false,
         z := 0, response_code := .NoError } : NetworkOrderDns.DNSPacketFlags)
      ≠ { packet_type := .Query, op_code := .Query, authorative_answer := false,
          truncated := false, recursion_desired := false, recursion_available := false,
          z := 1, response_code := .NoError } := by
  decide

/-- C2.  The claim asserts that a compression pointer whose 14-bit
offset `q` satisfies `q ≥ p` is rejected as `MalformedName`.
`DomainName::from_position` performs no such comparison: on the buffer
`[0xC0, 0x00]` decoded at position 0 the pointer targets its own offset
and the source recurses forever (every fuel bound is exhausted, never a
`MalformedName` error), and on `[0xC0, 0x02, 0x01, 0x61, 0x00]` a
forward pointer (`q = 2 > p = 0`) decodes successfully, contradicting
"decoding succeeds only when q < p". -/
theorem dnsquery_c2_pointer_unchecked :
    (∀ (fuel : Nat) (labels : List Rfc1035.LabelType),
      (Rfc1035.DomainName.from_position fuel 0 [192, 0] labels).2 = RunResult.noFuel)
    ∧ Rfc1035.DomainName.from_position 8 0 [192, 2, 1, 97, 0] []
        = ([Rfc1035.LabelType.label ⟨1, [97]⟩, Rfc1035.LabelType.root], RunResult.ok 2) := by
  constructor
  · intro fuel
    induction fuel with
    | zero => intro labels; rfl
    | succ n ih =>
      intro labels
      have hstep : Rfc1035.DomainName.from_position (n + 1) 0 [192, 0] labels
          = (match Rfc1035.DomainName.from_position n 0 [192, 0] labels with
             | (labels2, RunResult.outOfBounds) => (labels2, RunResult.outOfBounds)
             | (labels2, RunResult.noFuel) => (labels2, RunResult.noFuel)
             | (labels2, _) => (labels2, RunResult.ok (0 + 2))) := rfl
      rw [hstep]
      rcases hEq : Rfc1035.DomainName.from_position n 0 [192, 0] labels with ⟨l2, r2⟩
      have h2 := ih labels
      rw [hEq] at h2
      have h3 : r2 = RunResult.noFuel := h2
      subst h3
      rfl
  · rfl

/-- C3 counterexample.  The claim asserts that a length octet with top
bits `01` or `10` (64..191) makes decoding fail with `MalformedName`.
At the concrete buffer `[0x41] ++ 65 × 'a' ++ [0x00]` the byte 0x41
(pattern `01`) is instead interpreted as a label length of 65 and
decoding succeeds, returning a 65-byte label. -/
theorem dnsquery_c3_reserved_accepted :
    Rfc1035.DomainName.from_position 3 0 (65 :: (List.replicate 65 97 ++ [0])) []
      = ([Rfc1035.LabelType.label ⟨65, List.replicate 65 97⟩, Rfc1035.LabelType.root],
         RunResult.ok 67) := by
  rfl

/-- C3 amended.  For every byte `b` with reserved top-bit pattern `01`
or `10` (64 ≤ b ≤ 191), the code does not reject it: `is_pointer b` is
false, and `from_position` interprets `b` as an ordinary label length,
so decoding the buffer `b :: b × 'a' ++ [0]` succeeds with a `b`-byte
label followed by the root sentinel (for any sufficient fuel). -/
theorem dnsquery_c3_reserved_is_length (b : Nat) (h64 : 64 ≤ b) (h191 : b ≤ 191) :
    Util.is_pointer b = false
    ∧ ∀ fuel : Nat,
        Rfc1035.DomainName.from_position (fuel + 2) 0 (b :: (List.replicate b 97 ++ [0])) []
          = ([Rfc1035.LabelType.label ⟨b, List.replicate b 97⟩, Rfc1035.LabelType.root],
             RunResult.ok (b + 2)) := by
  have hnp : Util.is_pointer b = false := by
    simp only [Util.is_pointer, decide_eq_false_iff_not]
    omega
  refine ⟨hnp, fun fuel => ?_⟩
  have hget0 : (b :: (List.replicate b 97 ++ [0])).get? 0 = some b := rfl
  have hb0 : ¬ b = 0 := by omega
  have hlen : 0 + b + 1 ≤ (b :: (List.replicate b 97 ++ [0])).length := by
    simp [List.length_replicate]
  have htake : ((b :: (List.replicate b 97 ++ [0])).drop 1).take b = List.replicate b 97 := by
    simp [List.take_left']
  have hutf : utf8Valid (List.replicate b 97) = true := by
    apply utf8Valid_of_ascii
    intro x hx
    have := List.eq_of_mem_replicate hx
    omega
  have hmod : b % 256 = b := Nat.mod_eq_of_lt (by omega)
  have hget1 : (b :: (List.replicate b 97 ++ [0])).get? (0 + b + 1) = some 0 := by
    rw [Nat.zero_add, List.get?_cons_succ, List.get?_append_right (by simp)]
    simp
  rw [Rfc1035.DomainName.from_position.eq_def]
  simp only [hget0, hb0, if_false, hnp, Bool.false_eq_true, hlen, if_true, htake, hutf]
  rw [Rfc1035.DomainName.from_position.eq_def]
  simp only [hget1, if_pos rfl]
  simp [Rfc1035.CharacterString.fromStr, hmod]

/-- C3 witness: the amended statement instantiated at the reserved
byte 0x80 (pattern `10`) with fuel 0. -/
theorem dnsquery_c3_reserved_witness :
    Util.is_pointer 128 = false
    ∧ Rfc1035.DomainName.from_position 2 0 (128 :: (List.replicate 128 97 ++ [0])) []
        = ([Rfc1035.LabelType.label ⟨128, List.replicate 128 97⟩, Rfc1035.LabelType.root],
           RunResult.ok 130) :=
  ⟨(dnsquery_c3_reserved_is_length 128 (by decide) (by decide)).1,
   (dnsquery_c3_reserved_is_length 128 (by decide) (by decide)).2 0⟩

/-- C5.  The claim asserts that `CharacterString::from_network_bytes`
reads the length byte at the current cursor position `p`, yields the
bytes that follow it, and leaves the cursor at `p + L + 1`.  The code
instead reads the length from absolute offset 0 of the buffer, yields
`buffer[1..L+1]`, and seeks the cursor to the absolute offset 12: on
the buffer `[3, 'a', 'b', 'c', 3, 'x', 'y', 'z']` with the cursor at
position 4 it returns the string "abc" with the cursor at 12, not
"xyz" with the cursor at 8 as the claim requires. -/
theorem dnsquery_c5_charstring_seek12 :
    NetworkOrderDns.CharacterString.from_network_bytes [3, 97, 98, 99, 3, 120, 121, 122] 4
      = RunResult.ok ([97, 98, 99], 12)
    ∧ (([97, 98, 99], 12) : List Nat × Nat) ≠ ([120, 121, 122], 8) :=
  ⟨rfl, by decide⟩

/-- C7.  The claim asserts that the value returned by
`to_network_bytes` always equals the number of octets appended.  The
`i32` implementation appends the four big-endian octets of the value
but returns `Ok(2)`, for every value and every starting buffer. -/
theorem dnsquery_c7_i32_returns_2 (v : Int) (buffer : List Nat) :
    (Primitive.i32_to_network_bytes v buffer).1.length = buffer.length + 4
    ∧ (Primitive.i32_to_network_bytes v buffer).2 = 2
    ∧ (Primitive.i32_to_network_bytes v buffer).2
        ≠ (Primitive.i32_to_network_bytes v buffer).1.length - buffer.length := by
  have hlen : (Primitive.i32_to_network_bytes v buffer).1.length = buffer.length + 4 := by
    show (buffer ++ Primitive.i32BeBytes v).length = buffer.length + 4
    rw [List.length_append, show (Primitive.i32BeBytes v).length = 4 from rfl]
  refine ⟨hlen, rfl, ?_⟩
  rw [hlen]
  show 2 ≠ buffer.length + 4 - buffer.length
  omega

/-- C6.  For each DNS enum (`QType`, `QClass`, `OpCode`, `PacketType`,
`ResponseCode`): the generated `TryFrom<u16>` maps every declared
discriminant back to its variant and rejects every value outside the
declared set with the conversion error naming the enum and the value
(never silently mapping it); and for the three enums whose wire codec
is instantiated by `derive_enum!(_, u16)` (`QType`, `QClass`,
`PacketType` in `src/network_order/dns.rs`), encoding a variant writes
its discriminant as two big-endian octets and decoding those octets
returns the same variant. -/
theorem dnsquery_c6_enum_roundtrip :
    (∀ e : Rfc1035.QType, Rfc1035.QType.try_from e.as_u16 = Except.ok e)
    ∧ (∀ v : Nat, v ∉ Rfc1035.QType.declared_values →
        Rfc1035.QType.try_from v = Except.error (enumConvErr "QType" v))
    ∧ (∀ e : Rfc1035.QClass, Rfc1035.QClass.try_from e.as_u16 = Except.ok e)
    ∧ (∀ v : Nat, v ∉ Rfc1035.QClass.declared_values →
        Rfc1035.QClass.try_from v = Except.error (enumConvErr "QClass" v))
    ∧ (∀ e : Rfc1035.OpCode, Rfc1035.OpCode.try_from e.as_u16 = Except.ok e)
    ∧ (∀ v : Nat, v ∉ Rfc1035.OpCode.declared_values →
        Rfc1035.OpCode.try_from v = Except.error (enumConvErr "OpCode" v))
    ∧ (∀ e : Rfc1035.PacketType, Rfc1035.PacketType.try_from e.as_u16 = Except.ok e)
    ∧ (∀ v : Nat, v ∉ Rfc1035.PacketType.declared_values →
        Rfc1035.PacketType.try_from v = Except.error (enumConvErr "PacketType" v))
    ∧ (∀ e : Rfc1035.ResponseCode, Rfc1035.ResponseCode.try_from e.as_u16 = Except.ok e)
    ∧ (∀ v : Nat, v ∉ Rfc1035.ResponseCode.declared_values →
        Rfc1035.ResponseCode.try_from v = Except.error (enumConvErr "ResponseCode" v))
    ∧ (∀ e : Rfc1035.QType,
        Macros.enum_from_network_bytes Rfc1035.QType.try_from
          (Macros.enum_to_network_bytes e.as_u16 []).1 0 = RunResult.ok (e, 2))
    ∧ (∀ e : Rfc1035.QClass,
        Macros.enum_from_network_bytes Rfc1035.QClass.try_from
          (Macros.enum_to_network_bytes e.as_u16 []).1 0 = RunResult.ok (e, 2))
    ∧ (∀ e : Rfc1035.PacketType,
        Macros.enum_from_network_bytes Rfc1035.PacketType.try_from
          (Macros.enum_to_network_bytes e.as_u16 []).1 0 = RunResult.ok (e, 2)) := by
  refine ⟨?_, ?_, ?_, ?_, ?_, ?_, ?_, ?_, ?_, ?_, ?_, ?_, ?_⟩
  · intro e; cases e <;> rfl
  · intro v hv
    unfold Rfc1035.QType.try_from
    rw [find_none_of_not_mem_map Rfc1035.QType.variants Rfc1035.QType.as_u16 v hv]
  · intro e; cases e <;> rfl
  · intro v hv
    unfold Rfc1035.QClass.try_from
    rw [find_none_of_not_mem_map Rfc1035.QClass.variants Rfc1035.QClass.as_u16 v hv]
  · intro e; cases e <;> rfl
  · intro v hv
    unfold Rfc1035.OpCode.try_from
    rw [find_none_of_not_mem_map Rfc1035.OpCode.variants Rfc1035.OpCode.as_u16 v hv]
  · intro e; cases e <;> rfl
  · intro v hv
    unfold Rfc1035.PacketType.try_from
    rw [find_none_of_not_mem_map Rfc1035.PacketType.variants Rfc1035.PacketType.as_u16 v hv]
  · intro e; cases e <;> rfl
  · intro v hv
    unfold Rfc1035.ResponseCode.try_from
    rw [find_none_of_not_mem_map Rfc1035.ResponseCode.variants Rfc1035.ResponseCode.as_u16 v hv]
  · intro e; cases e <;> rfl
  · intro e; cases e <;> rfl
  · intro e; cases e <;> rfl

/-- C6 witness: the value 7 is outside the declared `OpCode` set and is
rejected with the error naming the enum and the value. -/
theorem dnsquery_c6_witness :
    Rfc1035.OpCode.try_from 7 = Except.error (enumConvErr "OpCode" 7) :=
  dnsquery_c6_enum_roundtrip.2.2.2.2.2.1 7 (by decide)

/-- C8 counterexample.  The claim asserts that after pushing any
number `n` of questions the header field `qd_count` equals `n`, the
in-memory question list length.  `qd_count` is a u16, so after 65536
pushes it has wrapped to 0 while the list holds 65536 questions. -/
theorem dnsquery_c8_qd_wraps :
    (Rfc1035.DNSMessage.pushQuestions (Rfc1035.DNSMessage.defaultVal 0)
        (List.replicate 65536
          ⟨[Rfc1035.LabelType.root], Rfc1035.QType.A, Rfc1035.QClass.IN⟩)).header.qd_count = 0
    ∧ (Rfc1035.DNSMessage.pushQuestions (Rfc1035.DNSMessage.defaultVal 0)
        (List.replicate 65536
          ⟨[Rfc1035.LabelType.root], Rfc1035.QType.A, Rfc1035.QClass.IN⟩)).question.length
        = 65536
    ∧ (0 : Nat) ≠ 65536 := by
  have hqd0 : (Rfc1035.DNSMessage.defaultVal 0).header.qd_count = 0 := rfl
  refine ⟨?_, ?_, by omega⟩
  · rw [pushQuestions_qd _ _ (by rw [hqd0]; omega)]
    rw [hqd0, List.length_replicate]
  · rw [pushQuestions_question,
      show (Rfc1035.DNSMessage.defaultVal 0).question = [] from rfl,
      List.nil_append, List.length_replicate]

/-- C8 amended.  After `DNSMessage::default()` and any sequence of
`push_question` calls, the header flags are exactly: packet type =
query, opcode = standard query, recursion-desired = true, every other
flag bit false and rcode = no-error; the question list is exactly the
pushed sequence; and `qd_count` equals the length of that list reduced
modulo 2^16 (`qd_count` is a u16), hence equals the list length
whenever fewer than 65536 questions are pushed. -/
theorem dnsquery_c8_query_header (id : Nat) (qs : List Rfc1035.DNSQuestion) :
    (Rfc1035.DNSMessage.pushQuestions (Rfc1035.DNSMessage.defaultVal id) qs).header.flags
      = { packet_type := .Query, op_code := .Query, authorative_answer := false,
          truncated := false, recursion_desired := true, recursion_available := false,
          z := false, authentic_data := false, checking_disabled := false,
          response_code := .NoError }
    ∧ (Rfc1035.DNSMessage.pushQuestions (Rfc1035.DNSMessage.defaultVal id) qs).header.qd_count
        = qs.length % 65536
    ∧ (Rfc1035.DNSMessage.pushQuestions (Rfc1035.DNSMessage.defaultVal id) qs).question = qs := by
  have hqd0 : (Rfc1035.DNSMessage.defaultVal id).header.qd_count = 0 := rfl
  refine ⟨?_, ?_, ?_⟩
  · rw [pushQuestions_flags]
    rfl
  · rw [pushQuestions_qd _ _ (by rw [hqd0]; omega)]
    rw [hqd0, Nat.zero_add]
  · rw [pushQuestions_question]
    rfl

/-- C9.  `CharacterString::from(&str)` is infallible and stores
`s.len() as u8` (the byte length modulo 256) as the length while
keeping the full string in `data`; for strings longer than 255 bytes
the stored length therefore disagrees with the data length. -/
theorem dnsquery_c9_charstring_from (s : List Nat) :
    (Rfc1035.CharacterString.fromStr s).length = s.length % 256
    ∧ (Rfc1035.CharacterString.fromStr s).data = s
    ∧ (255 < s.length → (Rfc1035.CharacterString.fromStr s).length ≠ s.length) := by
  refine ⟨rfl, rfl, fun h => ?_⟩
  simp only [Rfc1035.CharacterString.fromStr]
  omega

/-- C9 witness: a 256-byte string keeps its data but records length 0. -/
theorem dnsquery_c9_witness :
    (Rfc1035.CharacterString.fromStr (List.replicate 256 97)).length
      ≠ (List.replicate 256 97).length :=
  (dnsquery_c9_charstring_from (List.replicate 256 97)).2.2
    (by rw [List.length_replicate]; omega)

/-- C10.  For every non-empty input string, `DomainName::try_from`
succeeds with a label vector that is non-empty, ends in the root
sentinel, and contains no empty labels (empty fragments from
consecutive, leading or trailing dots are filtered out); the input "."
yields exactly the single root sentinel. -/
theorem dnsquery_c10_try_from (d : List Nat) (h : d ≠ []) :
    ∃ ls : List Rfc1035.LabelType,
      Rfc1035.DomainName.try_from d = Except.ok ls
      ∧ ls ≠ []
      ∧ ls.getLast? = some Rfc1035.LabelType.root
      ∧ (∀ cs : Rfc1035.CharacterString, Rfc1035.LabelType.label cs ∈ ls → cs.data ≠ [])
      ∧ (d = [46] → ls = [Rfc1035.LabelType.root]) := by
  unfold Rfc1035.DomainName.try_from
  rw [if_neg h]
  by_cases h46 : d = [46]
  · rw [if_pos h46]
    exact ⟨[Rfc1035.LabelType.root], rfl, by simp, by simp, by simp, fun _ => rfl⟩
  · rw [if_neg h46]
    refine ⟨_, rfl, ?_, ?_, ?_, fun hc => absurd hc h46⟩
    · simp
    · exact List.getLast?_concat _
    · intro cs hmem
      rcases List.mem_append.mp hmem with hmem | hmem
      · rcases List.mem_map.mp hmem with ⟨x, hx, hlab⟩
        have hxne : x ≠ [] := by
          have := (List.mem_filter.mp hx).2
          simpa using this
        have hcs : cs = Rfc1035.CharacterString.fromStr x := by
          cases hlab
          rfl
        rw [hcs]
        exact hxne
      · simp at hmem

/-- C10 witness: the one-letter domain "a". -/
theorem dnsquery_c10_witness :
    ∃ ls : List Rfc1035.LabelType,
      Rfc1035.DomainName.try_from [97] = Except.ok ls
      ∧ ls ≠ []
      ∧ ls.getLast? = some Rfc1035.LabelType.root
      ∧ (∀ cs : Rfc1035.CharacterString, Rfc1035.LabelType.label cs ∈ ls → cs.data ≠ [])
      ∧ ([97] = [46] → ls = [Rfc1035.LabelType.root]) :=
  dnsquery_c10_try_from [97] (by decide)

/-- The encoding foldl of `DomainName::to_network_bytes` in closed
form. -/
theorem enc_foldl (ls : List (List Nat)) (buf : List Nat) (n : Nat) :
    ls.foldl
        (fun (acc : List Nat × Nat) l => (acc.1 ++ (l.length % 256) :: l, acc.2 + l.length + 1))
        (buf, n)
      = (buf ++ NetworkOrderDns.encBody ls, n + NetworkOrderDns.encLen ls) := by
  induction ls generalizing buf n with
  | nil => simp [NetworkOrderDns.encBody, NetworkOrderDns.encLen]
  | cons l ls ih =>
    simp only [List.foldl_cons, ih, NetworkOrderDns.encBody, NetworkOrderDns.encLen,
      Prod.mk.injEq]
    constructor
    · simp [List.append_assoc]
    · omega

/-- `DomainName::to_network_bytes` produces the label byte run followed
by the zero octet, and returns the accumulated length plus one. -/
theorem to_network_bytes_eq (ls : List (List Nat)) :
    NetworkOrderDns.DomainName.to_network_bytes ls []
      = (NetworkOrderDns.encBody ls ++ [0], NetworkOrderDns.encLen ls + 1) := by
  unfold NetworkOrderDns.DomainName.to_network_bytes
  rw [enc_foldl]
  simp

/-- Every byte of the encoded label run is non-zero and below 192 when
the labels have lengths 1..63 and bytes 1..191. -/
theorem encBody_bytes (ls : List (List Nat))
    (h : ∀ l ∈ ls, 1 ≤ l.length ∧ l.length ≤ 63 ∧ ∀ x ∈ l, 1 ≤ x ∧ x ≤ 191) :
    ∀ x ∈ NetworkOrderDns.encBody ls, x ≠ 0 ∧ x < 192 := by
  induction ls with
  | nil => intro x hx; simp [NetworkOrderDns.encBody] at hx
  | cons l ls ih =>
    intro x hx
    have hl := h l (by simp)
    have hmod : l.length % 256 = l.length := Nat.mod_eq_of_lt (by omega)
    simp only [NetworkOrderDns.encBody, hmod, List.mem_cons, List.mem_append] at hx
    rcases hx with hx | hx | hx
    · subst hx
      exact ⟨by omega, by omega⟩
    · have := hl.2.2 x hx
      exact ⟨by omega, by omega⟩
    · exact ih (fun y hy => h y (by simp [hy])) x hx

/-- The sentinel scan of `DomainName::from_network_bytes` skips every
byte that is neither 0 nor ≥ 192 and stops at the terminator. -/
theorem findSentinelAux_skip (s : List Nat) : ∀ i : Nat, (∀ x ∈ s, x ≠ 0 ∧ x < 192) →
    NetworkOrderDns.findSentinelAux (s ++ [0]) i = some (i + s.length, 0) := by
  induction s with
  | nil => intro i _; rfl
  | cons b s ih =>
    intro i h
    have hb := h b (by simp)
    have hcond : (decide (b = 0) || decide (192 ≤ b)) = false := by
      simp only [Bool.or_eq_false_iff, decide_eq_false_iff_not]
      exact ⟨hb.1, by omega⟩
    simp only [List.cons_append, NetworkOrderDns.findSentinelAux, hcond, Bool.false_eq_true,
      if_false, List.append_eq]
    rw [ih (i + 1) (fun x hx => h x (by simp [hx]))]
    have harith : i + 1 + s.length = i + (s.length + 1) := by omega
    rw [harith]
    rfl

/-- The spec-modelled `from_slice` decodes the encoded label run (zero
octet included) into the labels followed by the root sentinel. -/
theorem from_slice_enc (ls : List (List Nat))
    (h : ∀ l ∈ ls, 1 ≤ l.length ∧ l.length ≤ 63 ∧ ∀ x ∈ l, 1 ≤ x ∧ x ≤ 191) :
    NetworkOrderDns.DomainName.from_slice (NetworkOrderDns.encBody ls ++ [0])
      = Except.ok
          (ls.map NetworkOrderDns.SpecLabel.label ++ [NetworkOrderDns.SpecLabel.root]) := by
  induction ls with
  | nil =>
    show NetworkOrderDns.DomainName.from_slice (0 :: []) = _
    rw [NetworkOrderDns.DomainName.from_slice.eq_def]
    simp
  | cons l ls ih =>
    have hl := h l (by simp)
    have hmod : l.length % 256 = l.length := Nat.mod_eq_of_lt (by omega)
    have hrec := ih (fun y hy => h y (by simp [hy]))
    show NetworkOrderDns.DomainName.from_slice
        ((l.length % 256) :: ((l ++ NetworkOrderDns.encBody ls) ++ [0])) = _
    rw [hmod, NetworkOrderDns.DomainName.from_slice.eq_def]
    have h0 : ¬ l.length = 0 := by omega
    have hp : Util.is_pointer l.length = false := by
      simp only [Util.is_pointer, decide_eq_false_iff_not]
      omega
    have h63 : ¬ 63 < l.length := by omega
    have hshort : ¬ ((l ++ NetworkOrderDns.encBody ls) ++ [0]).length < l.length := by
      simp only [List.length_append, List.length_cons, List.length_nil]
      omega
    simp only [h0, if_false, hp, Bool.false_eq_true, h63, hshort,
      List.append_assoc, List.drop_left, List.take_left]
    rw [hrec]
    simp

/-- The encoded label run is as long as the accumulated length
counter. -/
theorem encBody_length (ls : List (List Nat)) :
    (NetworkOrderDns.encBody ls).length = NetworkOrderDns.encLen ls := by
  induction ls with
  | nil => rfl
  | cons l ls ih =>
    simp [NetworkOrderDns.encBody, NetworkOrderDns.encLen, ih]
    omega

/-- C4 counterexample.  The claim quantifies over every domain name
whose labels have length 1..63 and total encoded length at most 255,
with no restriction on the label bytes.  The label `[0xC4, 0xA4]`
(the two UTF-8 bytes of a single letter) satisfies those bounds, but
its first byte is ≥ 192, so the byte-blind sentinel scan of
`from_network_bytes` mistakes it for a compression pointer: decoding
the 4-byte encoding fails with an error instead of returning the label
and the root sentinel. -/
theorem dnsquery_c4_bytes_break_roundtrip :
    NetworkOrderDns.DomainName.from_network_bytes
        (NetworkOrderDns.DomainName.to_network_bytes [[196, 164]] []).1 0
      = RunResult.err DNSError.io := by
  have hbuf : (NetworkOrderDns.DomainName.to_network_bytes [[196, 164]] []).1
      = [2, 196, 164, 0] := rfl
  rw [hbuf]
  have hfind : NetworkOrderDns.findSentinel [2, 196, 164, 0] 0 = some (1, 196) := rfl
  have hfs : NetworkOrderDns.DomainName.from_slice [2, 196] = Except.error DNSError.io := by
    rw [NetworkOrderDns.DomainName.from_slice.eq_def]
    norm_num [Util.is_pointer]
  simp only [NetworkOrderDns.DomainName.from_network_bytes, hfind]
  norm_num
  rw [hfs]

/-- C4 amended.  For every domain name whose labels each have length
in [1,63], whose label bytes are all in [1,191] (no zero bytes and no
bytes with top bit pattern `11`, so that the byte-blind sentinel scan
cannot misfire), and whose total encoded length is at most 255,
encoding with `DomainName::to_network_bytes` (length byte, label
bytes, terminating zero, no compression) and decoding the produced
buffer with `DomainName::from_network_bytes` yields the same label
sequence followed by the root sentinel, with the cursor past the
terminator. -/
theorem dnsquery_c4_roundtrip (labels : List (List Nat))
    (h : ∀ l ∈ labels, 1 ≤ l.length ∧ l.length ≤ 63 ∧ ∀ x ∈ l, 1 ≤ x ∧ x ≤ 191)
    (htot : (NetworkOrderDns.DomainName.to_network_bytes labels []).2 ≤ 255) :
    NetworkOrderDns.DomainName.from_network_bytes
        (NetworkOrderDns.DomainName.to_network_bytes labels []).1 0
      = RunResult.ok
          (labels.map NetworkOrderDns.SpecLabel.label ++ [NetworkOrderDns.SpecLabel.root],
           (NetworkOrderDns.DomainName.to_network_bytes labels []).2) := by
  rw [to_network_bytes_eq]
  have hfind : NetworkOrderDns.findSentinel
      (NetworkOrderDns.encBody labels ++ [0]) 0
      = some ((NetworkOrderDns.encBody labels).length, 0) := by
    unfold NetworkOrderDns.findSentinel
    rw [List.drop_zero, findSentinelAux_skip _ 0 (encBody_bytes labels h), Nat.zero_add]
  have hslice : ((NetworkOrderDns.encBody labels ++ [0]).drop 0).take
      ((NetworkOrderDns.encBody labels).length + 1 - 0)
      = NetworkOrderDns.encBody labels ++ [0] := by
    rw [List.drop_zero, Nat.sub_zero,
      show (NetworkOrderDns.encBody labels).length + 1
        = (NetworkOrderDns.encBody labels ++ [0]).length by simp,
      List.take_length]
  simp only [NetworkOrderDns.DomainName.from_network_bytes, hfind, if_pos rfl, hslice,
    from_slice_enc labels h, if_true]
  rw [encBody_length]

/-- C4 witness: the single label "www" (ASCII bytes) round-trips
through encode and decode, yielding the label plus root with the
cursor at 5. -/
theorem dnsquery_c4_witness :
    NetworkOrderDns.DomainName.from_network_bytes
        (NetworkOrderDns.DomainName.to_network_bytes [[119, 119, 119]] []).1 0
      = RunResult.ok
          ([NetworkOrderDns.SpecLabel.label [119, 119, 119], NetworkOrderDns.SpecLabel.root],
           5) :=
  dnsquery_c4_roundtrip [[119, 119, 119]] (by decide) (by decide)

end Dnsquery
